import Mathlib

/-!
Verification of the wgpu texture backend (src/graphics/backend_wgpu/texture.rs).

The Rust module manages GPU texture resources: creation of sampled textures
(single and array-layered), off-screen drawables, and synchronous pixel
readback.  We give a shallow embedding: the GPU device is modelled by the
trace of resource-allocation and command-submission operations the code
performs (DeviceOp), together with a small device state holding the contents
of the drawable's texture.  Machine integers are Nat with explicit mod where
the source casts (u16 casts are mod 2 to the 16, usize-to-u32 casts are mod
2 to the 32).  Panics (slice index out of bounds, Option unwrap and expect)
are modelled by Option results, where none means the call aborts.
-/

namespace Coffee

/-- A raw byte, as stored in pixel buffers.  Modelled as Nat; the 0..255
range is irrelevant to the properties proved here. -/
abbrev Byte := Nat

/-- Model of image DynamicImage: a decoded image with u32 dimensions
(unbounded Nat here; the source casts them to u16 on texture construction)
and its raw byte data. -/
structure DynamicImage where
  width : Nat
  height : Nat
  data : List Byte
  deriving DecidableEq, Repr

/-- Modelled from the spec: the external image crate conversion to_bgra
normalizes an image to the fixed 4-bytes-per-pixel B,G,R,A layout.  It
preserves width and height and always yields exactly width * height * 4
bytes.  On an input that already carries exactly 4 * w * h bytes the data
passes through unchanged; channel reordering is not observable by any
property proved here and is not modelled. -/
def DynamicImage.to_bgra (i : DynamicImage) : DynamicImage :=
  { width := i.width
    height := i.height
    data := i.data.take (4 * i.width * i.height)
      ++ List.replicate (4 * i.width * i.height - i.data.length) 0 }

/-- wgpu TextureUsage flag set (the flags this module uses). -/
structure TextureUsage where
  transfer_dst : Bool := false
  transfer_src : Bool := false
  sampled : Bool := false
  output_attachment : Bool := false
  deriving DecidableEq, Repr

/-- wgpu BufferUsage flag set (the flags this module uses). -/
structure BufferUsage where
  transfer_src : Bool := false
  transfer_dst : Bool := false
  map_read : Bool := false
  deriving DecidableEq, Repr

/-- A GPU transfer command recorded into a command encoder.
Arguments mirror the wgpu copy descriptors used in the source. -/
inductive GpuCommand where
  /-- copy_buffer_to_texture: source offset, row pitch, image height,
  destination array layer, destination mip level, extent w, h, depth. -/
  | copyBufferToTexture (srcOffset rowPitch imageHeight destLayer destMip
      extentW extentH extentD : Nat)
  /-- copy_texture_to_buffer: source array layer, source mip level,
  destination offset, row pitch, image height, extent w, h, depth. -/
  | copyTextureToBuffer (srcLayer srcMip destOffset rowPitch imageHeight
      extentW extentH extentD : Nat)
  deriving DecidableEq, Repr

/-- A device-level operation performed by the backend: resource allocation,
command submission, asynchronous map request, blocking poll.  The embedding
records the trace of these operations for each call. -/
inductive DeviceOp where
  | createTexture (width height layerCount : Nat) (usage : TextureUsage)
  | createBufferMapped (size : Nat) (contents : List Byte) (usage : BufferUsage)
  | createBuffer (size : Nat) (usage : BufferUsage)
  | submit (commands : List GpuCommand)
  | mapReadAsync (start size : Nat)
  | poll (block : Bool)
  deriving DecidableEq, Repr

/-- Model of the raw wgpu texture handle: the descriptor data it was
allocated with (format Bgra8UnormSrgb and dimension D2 are fixed constants
in the source and are not repeated here). -/
structure RawTexture where
  width : Nat
  height : Nat
  arrayLayerCount : Nat
  mipLevelCount : Nat
  sampleCount : Nat
  usage : TextureUsage
  deriving DecidableEq, Repr

/-- Model of the wgpu texture view created over the raw texture (format and
D2Array dimension are fixed constants in the source). -/
structure TextureView where
  baseMipLevel : Nat
  levelCount : Nat
  baseArrayLayer : Nat
  arrayCount : Nat
  deriving DecidableEq, Repr

/-- Model of the opaque quad pipeline texture binding: the pipeline
collaborator is called once with the view and the result is opaque, so the
model just records the bound view. -/
structure TextureBinding where
  view : TextureView
  deriving DecidableEq, Repr

/-- create_texture_array: allocates a texture with one array layer per
supplied pixel buffer (defaulting to 1 when no data is supplied), uploads
the concatenated layers through a transient mapped staging buffer and a
single copy command submitted immediately, and creates the view and the
pipeline binding.  Returns the handles together with the trace of device
operations.  The usize-to-u32 cast on the layer count is mod 2 to the 32. -/
def create_texture_array (width height : Nat)
    (layers : Option (List (List Byte))) (usage : TextureUsage) :
    RawTexture × TextureView × TextureBinding × List DeviceOp :=
  let layer_count := (match layers with
    | some l => l.length
    | none => 1) % 2 ^ 32
  let texture : RawTexture :=
    { width := width, height := height, arrayLayerCount := layer_count
      mipLevelCount := 1, sampleCount := 1, usage := usage }
  let uploadOps : List DeviceOp :=
    match layers with
    | none => []
    | some ls =>
      let slice := ls.flatten
      [DeviceOp.createBufferMapped slice.length slice { transfer_src := true },
       DeviceOp.submit
         [GpuCommand.copyBufferToTexture 0 (4 * width) height 0 0 width height 1]]
  let view : TextureView :=
    { baseMipLevel := 0, levelCount := 1, baseArrayLayer := 0
      arrayCount := layer_count }
  let binding : TextureBinding := { view := view }
  (texture, view, binding,
    DeviceOp.createTexture width height layer_count usage :: uploadOps)

/-- Model of the Texture struct: shared handles plus u16 width, height and
layer count (reference counting is not observable in this embedding; the
handle fields hold the shared values directly). -/
structure Texture where
  raw : RawTexture
  view : TextureView
  binding : TextureBinding
  width : Nat
  height : Nat
  layers : Nat
  deriving DecidableEq, Repr

/-- Texture.new: single-layer construction from one image.  The image is
converted to BGRA, its u32 dimensions are cast to u16 (mod 2 to the 16),
and the builder is invoked with the single raw byte buffer and
TRANSFER_DST plus SAMPLED usage.  Returns the Texture and the device trace. -/
def Texture.new (image : DynamicImage) : Texture × List DeviceOp :=
  let bgra := image.to_bgra
  let width := bgra.width % 2 ^ 16
  let height := bgra.height % 2 ^ 16
  let r := create_texture_array width height (some [bgra.data])
    { transfer_dst := true, sampled := true }
  ({ raw := r.1, view := r.2.1, binding := r.2.2.1
     width := width, height := height, layers := 1 }, r.2.2.2)

/-- Texture.new_array: multi-layer construction.  Indexing layers[0] on an
empty slice panics in Rust; the model returns none in that case.  Width and
height come from the first layer (u16 casts), every layer is converted to
BGRA, and the stored layer count is the input length cast to u16
(mod 2 to the 16). -/
def Texture.new_array (layers : List DynamicImage) :
    Option (Texture × List DeviceOp) :=
  match layers with
  | [] => none
  | l0 :: _ =>
    let first_layer := l0.to_bgra
    let width := first_layer.width % 2 ^ 16
    let height := first_layer.height % 2 ^ 16
    let bgra := layers.map (fun i => i.to_bgra.data)
    let r := create_texture_array width height (some bgra)
      { transfer_dst := true, sampled := true }
    some ({ raw := r.1, view := r.2.1, binding := r.2.2.1
            width := width, height := height
            layers := layers.length % 2 ^ 16 }, r.2.2.2)

/-- Model of the Drawable struct: it wraps exactly one Texture and nothing
else, exactly as in the source. -/
structure Drawable where
  texture : Texture
  deriving DecidableEq, Repr

/-- Drawable.new: builds the texture through create_texture_array with no
initial pixel data and OUTPUT_ATTACHMENT plus SAMPLED plus TRANSFER_SRC
usage, always single-layer. -/
def Drawable.new (width height : Nat) : Drawable × List DeviceOp :=
  let r := create_texture_array width height none
    { transfer_src := true, sampled := true, output_attachment := true }
  ({ texture :=
      { raw := r.1, view := r.2.1, binding := r.2.2.1
        width := width, height := height, layers := 1 } }, r.2.2.2)

/-- The portion of mutable device state observable by readback on one
drawable: the byte contents of the drawable's texture (layer 0, row-major,
row pitch exactly 4 * width) as left by the last submitted render, and the
sizes of the single-use staging buffers allocated so far by readback calls. -/
structure DeviceState where
  texture_data : List Byte
  stagingAllocs : List Nat
  deriving DecidableEq, Repr

/-- Whether the device reports the asynchronous map_read_async request as
succeeded or failed.  This is the device collaborator's choice, so readback
is parametrised over it. -/
inductive MapOutcome where
  | success
  | failure
  deriving DecidableEq, Repr

/-- The byte range handed to the mapping callback on success. -/
structure MappedMemory where
  data : List Byte
  deriving DecidableEq, Repr

/-- The closure passed to map_read_async (texture.rs lines 197-206): given
the result delivered by the device, the value it stores into the shared
result cell.  On success it copies the mapped bytes; on failure it stores
the empty byte sequence.  The cell starts at none and holds some value once
the callback has fired. -/
def map_read_callback (result : Except Unit MappedMemory) :
    Option (List Byte) :=
  match result with
  | Except.ok mapping => some mapping.data
  | Except.error _ => some []

/-- Device contract for the staging buffer contents: mapping the byte range
from 0 to size of a buffer yields exactly size bytes.  After the submitted
copy_texture_to_buffer command completes (guaranteed by the blocking poll),
those bytes are the texture contents; the padding branch only applies to
device states that do not hold exactly the texture's byte count and never
fires for well-formed states. -/
def pad_to (size : Nat) (l : List Byte) : List Byte :=
  l.take size ++ List.replicate (size - l.length) 0

/-- The result the device delivers to the mapping callback in read_pixels:
on success, the staging buffer contents over the full requested range
(the drawable's texture bytes, by the copy command and the submission-order
guarantee); on failure, the error value. -/
def Drawable.mapped_data (d : Drawable) (s : DeviceState)
    (outcome : MapOutcome) : Except Unit MappedMemory :=
  match outcome with
  | MapOutcome.success =>
    Except.ok { data := pad_to (4 * d.texture.width * d.texture.height) s.texture_data }
  | MapOutcome.failure => Except.error ()

/-- Modelled from the spec: the external image crate constructor
ImageBuffer::from_raw, which the spec specifies as fatal (none, so the
expect call aborts) exactly when the byte count does not match
width * height * 4. -/
def ImageBuffer.from_raw (width height : Nat) (data : List Byte) :
    Option DynamicImage :=
  if data.length = 4 * width * height then
    some { width := width, height := height, data := data }
  else
    none

/-- The bytes found in the shared result cell after the poll returns
(the unwrap in the source; the none branch of the cell is unreachable
because the callback always stores some value). -/
def Drawable.cell_bytes (d : Drawable) (s : DeviceState)
    (outcome : MapOutcome) : List Byte :=
  match map_read_callback (d.mapped_data s outcome) with
  | some b => b
  | none => []

/-- Drawable.read_pixels: allocates a host-readable staging buffer of
4 * width * height bytes, records a copy_texture_to_buffer command in the
caller-supplied encoder (layer 0, mip 0, row pitch 4 * width, full extent)
and submits it, requests an asynchronous map over the full range, blocks in
poll until the callback has stored into the shared cell, then constructs
the image from the cell bytes.  Returns the image (none models the fatal
expect or unwrap), the updated device state (the texture itself is not
modified; only a staging allocation is added), and the device trace. -/
def Drawable.read_pixels (d : Drawable) (s : DeviceState)
    (encoder : List GpuCommand) (outcome : MapOutcome) :
    Option DynamicImage × DeviceState × List DeviceOp :=
  let texture := d.texture
  let buffer_size := 4 * texture.width * texture.height
  let copyCmd := GpuCommand.copyTextureToBuffer 0 0 0 (4 * texture.width)
    texture.height texture.width texture.height 1
  let ops : List DeviceOp :=
    [DeviceOp.createBuffer buffer_size
       { transfer_dst := true, transfer_src := true, map_read := true },
     DeviceOp.submit (encoder ++ [copyCmd]),
     DeviceOp.mapReadAsync 0 buffer_size,
     DeviceOp.poll true]
  let s2 : DeviceState := { s with stagingAllocs := buffer_size :: s.stagingAllocs }
  let img : Option DynamicImage :=
    match map_read_callback (d.mapped_data s outcome) with
    | none => none
    | some bgra => ImageBuffer.from_raw texture.width texture.height bgra
  (img, s2, ops)

/-- Number of copy_buffer_to_texture commands submitted across a device
trace. -/
def GpuCommand.is_buffer_to_texture : GpuCommand → Bool
  | GpuCommand.copyBufferToTexture .. => true
  | _ => false

/-- Total count of copy-buffer-to-texture commands submitted in a trace. -/
def copy_count (ops : List DeviceOp) : Nat :=
  (ops.map (fun op =>
    match op with
    | DeviceOp.submit cmds =>
      (cmds.filter GpuCommand.is_buffer_to_texture).length
    | _ => 0)).sum

/-- A 1 by 1 all-zero test image. -/
def ex1 : DynamicImage := { width := 1, height := 1, data := [0, 0, 0, 0] }

/-- A 2 by 2 all-zero test image. -/
def ex2 : DynamicImage :=
  { width := 2, height := 2, data := List.replicate 16 0 }

/-- A valid image of width 65536 and height 1: its byte count matches
width * height * 4 exactly, but its width does not fit in u16. -/
def ex3 : DynamicImage :=
  { width := 65536, height := 1, data := List.replicate 262144 0 }

/-- A well-formed device state for a 1 by 1 drawable. -/
def s0 : DeviceState := { texture_data := [0, 0, 0, 0], stagingAllocs := [] }

/-! ## Helper lemmas -/

/-- Image construction is fatal exactly on a byte-count mismatch. -/
theorem from_raw_eq_none (w h : Nat) (bytes : List Byte) :
    ImageBuffer.from_raw w h bytes = none ↔ bytes.length ≠ 4 * w * h := by
  unfold ImageBuffer.from_raw
  split <;> simp_all

/-- Mapping the full requested range always yields exactly that many bytes. -/
theorem pad_to_length (size : Nat) (l : List Byte) :
    (pad_to size l).length = size := by
  simp [pad_to]
  omega

/-- The layer count stored by new_array on a nonempty input is the input
length cast to u16. -/
theorem new_array_layers (l0 : DynamicImage) (ls : List DynamicImage) :
    (Texture.new_array (l0 :: ls)).map (fun p => p.1.layers) =
      some ((l0 :: ls).length % 2 ^ 16) := rfl

/-- The image produced by read_pixels is always the result of constructing
an image from the bytes found in the shared cell. -/
theorem read_pixels_fst (d : Drawable) (s : DeviceState)
    (enc : List GpuCommand) (o : MapOutcome) :
    (d.read_pixels s enc o).1 =
      ImageBuffer.from_raw d.texture.width d.texture.height
        (d.cell_bytes s o) := by
  cases o <;> rfl

/-! ## Claims -/

/-- Claim C1: in read_pixels, the mapping-completion callback stores the
mapped bytes into the shared result cell on success and stores the empty
byte sequence as a sentinel on failure; the failure is not surfaced as a
distinct error outcome — on failure the call behaves exactly as the
ordinary image-construction path applied to an empty byte sequence. -/
theorem read_pixels_masks_mapping_failure (m : MappedMemory) (d : Drawable)
    (s : DeviceState) (enc : List GpuCommand) :
    map_read_callback (Except.ok m) = some m.data ∧
    map_read_callback (Except.error ()) = some [] ∧
    (d.read_pixels s enc MapOutcome.failure).1 =
      ImageBuffer.from_raw d.texture.width d.texture.height [] :=
  ⟨rfl, rfl, rfl⟩

/-- Claim C2: at the end of read_pixels, constructing the result image from
a byte sequence whose length is not exactly width * height * 4 is fatal
(the call aborts, modelled by none, rather than returning an image), and
the readback call aborts exactly when the bytes found in the shared cell
mismatch that count. -/
theorem read_pixels_length_mismatch_fatal (w h : Nat) (bytes : List Byte)
    (d : Drawable) (s : DeviceState) (enc : List GpuCommand) (o : MapOutcome) :
    (ImageBuffer.from_raw w h bytes = none ↔ bytes.length ≠ 4 * w * h) ∧
    ((d.read_pixels s enc o).1 = none ↔
      (d.cell_bytes s o).length ≠ 4 * d.texture.width * d.texture.height) := by
  refine ⟨from_raw_eq_none w h bytes, ?_⟩
  rw [read_pixels_fst]
  exact from_raw_eq_none d.texture.width d.texture.height (d.cell_bytes s o)

/-- Claim C5: every read_pixels call allocates the host-readable staging
buffer with size exactly 4 * width * height bytes (with copy-destination,
copy-source and map-read usage), the successful readback result carries
exactly that many bytes, and a 1 by 1 drawable produces a 4-byte result. -/
theorem read_pixels_buffer_size (d : Drawable) (s : DeviceState)
    (enc : List GpuCommand) (o : MapOutcome) :
    (d.read_pixels s enc o).2.2 =
      [DeviceOp.createBuffer (4 * d.texture.width * d.texture.height)
         { transfer_dst := true, transfer_src := true, map_read := true },
       DeviceOp.submit (enc ++ [GpuCommand.copyTextureToBuffer 0 0 0
         (4 * d.texture.width) d.texture.height d.texture.width
         d.texture.height 1]),
       DeviceOp.mapReadAsync 0 (4 * d.texture.width * d.texture.height),
       DeviceOp.poll true] ∧
    (d.read_pixels s enc MapOutcome.success).1.map (fun i => i.data.length) =
      some (4 * d.texture.width * d.texture.height) ∧
    ((Drawable.new 1 1).1.read_pixels s0 [] MapOutcome.success).1.map
      (fun i => i.data.length) = some 4 := by
  refine ⟨rfl, ?_, rfl⟩
  have hlen := pad_to_length (4 * d.texture.width * d.texture.height)
    s.texture_data
  simp [Drawable.read_pixels, Drawable.mapped_data, map_read_callback,
    ImageBuffer.from_raw, hlen]

/-- Claim C6: every Drawable wraps exactly one Texture and carries no
additional state, it is constructed through the builder with no initial
pixel data (no staging buffer, no copy command in the trace) and with
render-target, copy-source and sampled usage, and its layer count is 1. -/
theorem drawable_single_texture_invariants (w h : Nat) :
    (Drawable.new w h).1.texture.layers = 1 ∧
    (Drawable.new w h).1.texture.raw.usage =
      { transfer_src := true, sampled := true, output_attachment := true } ∧
    (Drawable.new w h).2 =
      [DeviceOp.createTexture w h 1
        { transfer_src := true, sampled := true, output_attachment := true }] ∧
    copy_count (Drawable.new w h).2 = 0 ∧
    ∀ d : Drawable, d = { texture := d.texture } := by
  refine ⟨rfl, rfl, ?_, rfl, fun d => rfl⟩
  norm_num [Drawable.new, create_texture_array]

/-- Claim C7: in the texture array builder, supplying pixel data allocates
one transient staging buffer sized to hold all layers concatenated and
filled from the host bytes, issues exactly one copy-buffer-to-texture
command (source offset 0, row pitch 4 * width, destination layer 0, full
extent) submitted immediately; supplying no data skips the upload path and
only allocates the texture, with layer count defaulting to 1. -/
theorem create_texture_array_upload_trace (w h : Nat) (ls : List (List Byte))
    (u : TextureUsage) :
    (create_texture_array w h (some ls) u).2.2.2 =
      [DeviceOp.createTexture w h (ls.length % 2 ^ 32) u,
       DeviceOp.createBufferMapped ls.flatten.length ls.flatten
         { transfer_src := true },
       DeviceOp.submit
         [GpuCommand.copyBufferToTexture 0 (4 * w) h 0 0 w h 1]] ∧
    copy_count (create_texture_array w h (some ls) u).2.2.2 = 1 ∧
    ls.flatten.length = (ls.map List.length).sum ∧
    (create_texture_array w h none u).2.2.2 =
      [DeviceOp.createTexture w h 1 u] ∧
    copy_count (create_texture_array w h none u).2.2.2 = 0 ∧
    (create_texture_array w h none u).1.arrayLayerCount = 1 := by
  refine ⟨rfl, rfl, List.length_flatten ls, ?_, rfl, ?_⟩ <;>
    norm_num [create_texture_array]

/-- Claim C8: reading pixels twice in succession from the same drawable,
with no modification of its texture in between (the first readback itself
leaves the texture contents untouched), yields byte-identical results. -/
theorem read_pixels_idempotent (d : Drawable) (s : DeviceState)
    (enc1 enc2 : List GpuCommand) (o : MapOutcome) :
    (d.read_pixels (d.read_pixels s enc1 o).2.1 enc2 o).1 =
      (d.read_pixels s enc1 o).1 := rfl

/-- Claim C9: for a drawable with positive width and height, a mapping
failure makes read_pixels abort at image construction (the empty sentinel
cannot form a width by height image), so the masked failure never escapes
to the caller as a successful empty image. -/
theorem read_pixels_failure_aborts (d : Drawable) (s : DeviceState)
    (enc : List GpuCommand) (hw : 0 < d.texture.width)
    (hh : 0 < d.texture.height) :
    (d.read_pixels s enc MapOutcome.failure).1 = none := by
  have hpos : 0 < 4 * d.texture.width * d.texture.height :=
    Nat.mul_pos (Nat.mul_pos (by norm_num) hw) hh
  simp [Drawable.read_pixels, Drawable.mapped_data, map_read_callback,
    ImageBuffer.from_raw]
  omega

/-- Witness for C9 at a concrete 1 by 1 drawable. -/
theorem read_pixels_failure_aborts_witness :
    0 < (Drawable.new 1 1).1.texture.width ∧
    0 < (Drawable.new 1 1).1.texture.height ∧
    ((Drawable.new 1 1).1.read_pixels s0 [] MapOutcome.failure).1 = none :=
  ⟨by decide, by decide,
    read_pixels_failure_aborts (Drawable.new 1 1).1 s0 [] (by decide) (by decide)⟩

/-- Counterexample to Claim C3 as stated: a valid input image (byte count
matches width * height * 4) of width 65536 yields a Texture whose width
reads back as 0, not 65536, because the source casts the u32 dimensions to
u16. -/
theorem texture_new_width_truncates_cex :
    ex3.data.length = 4 * ex3.width * ex3.height ∧
    ex3.width = 65536 ∧
    (Texture.new ex3).1.width = 0 := by
  refine ⟨?_, rfl, ?_⟩
  · norm_num [ex3]
  · decide

/-- Claim C3 (amended): for every valid input image whose width and height
each fit in u16 (are less than 65536), constructing a single-layer Texture
via Texture.new returns exactly the input dimensions from width() and
height(), and the resulting Texture has layer count 1. -/
theorem texture_new_dims_amended (img : DynamicImage)
    (hv : img.data.length = 4 * img.width * img.height)
    (hw : img.width < 2 ^ 16) (hh : img.height < 2 ^ 16) :
    (Texture.new img).1.width = img.width ∧
    (Texture.new img).1.height = img.height ∧
    (Texture.new img).1.layers = 1 :=
  ⟨Nat.mod_eq_of_lt hw, Nat.mod_eq_of_lt hh, rfl⟩

/-- Witness for amended C3 at a concrete 1 by 1 image. -/
theorem texture_new_dims_amended_witness :
    ex1.data.length = 4 * ex1.width * ex1.height ∧
    ex1.width < 2 ^ 16 ∧ ex1.height < 2 ^ 16 ∧
    ((Texture.new ex1).1.width = ex1.width ∧
     (Texture.new ex1).1.height = ex1.height ∧
     (Texture.new ex1).1.layers = 1) :=
  ⟨by decide, by decide, by decide,
    texture_new_dims_amended ex1 (by decide) (by decide) (by decide)⟩

/-- Counterexample to Claim C4 as stated: a list of 65536 equally-sized
images produces a Texture whose layer count reads back as 0, not 65536,
because the source casts the input length to u16. -/
theorem new_array_layer_count_truncates_cex :
    (List.replicate 65536 ex1).length = 65536 ∧
    (Texture.new_array (List.replicate 65536 ex1)).map (fun p => p.1.layers) =
      some 0 := by
  have h65 : (65536 : Nat) = 65535 + 1 := by norm_num
  have hmod : (65535 + 1) % 2 ^ 16 = 0 := by norm_num
  refine ⟨by rw [List.length_replicate], ?_⟩
  rw [h65, List.replicate_succ, new_array_layers, List.length_cons,
    List.length_replicate, hmod]

/-- Claim C4 (amended): for every nonempty list of fewer than 65536 input
images, Texture.new_array produces a Texture whose layer count equals the
list length. -/
theorem new_array_layers_amended (ls : List DynamicImage)
    (hne : ls ≠ []) (hlen : ls.length < 2 ^ 16) :
    (Texture.new_array ls).map (fun p => p.1.layers) = some ls.length := by
  cases ls with
  | nil => exact absurd rfl hne
  | cons l0 tl =>
    rw [new_array_layers]
    exact congrArg some (Nat.mod_eq_of_lt hlen)

/-- Witness for amended C4 at a concrete one-element list. -/
theorem new_array_layers_amended_witness :
    ([ex1] ≠ ([] : List DynamicImage)) ∧ [ex1].length < 2 ^ 16 ∧
    (Texture.new_array [ex1]).map (fun p => p.1.layers) = some 1 :=
  ⟨by simp, by norm_num,
    by simpa using new_array_layers_amended [ex1] (by simp) (by norm_num)⟩

/-- Counterexample to Claim C10 as stated: new_array can return a Texture
with layer count 0 (and hence not at least 1) when given 65536 images,
because the source casts the input length to u16. -/
theorem new_array_zero_layers_cex :
    (Texture.new_array (List.replicate 65536 ex2)).map (fun p => p.1.layers) =
      some 0 ∧ ¬ 1 ≤ (0 : Nat) := by
  have h65 : (65536 : Nat) = 65535 + 1 := by norm_num
  have hmod : (65535 + 1) % 2 ^ 16 = 0 := by norm_num
  refine ⟨?_, by norm_num⟩
  rw [h65, List.replicate_succ, new_array_layers, List.length_cons,
    List.length_replicate, hmod]

/-- Claim C10 (amended): calling Texture.new_array on an empty list fails
immediately (the out-of-bounds index on the first element, modelled by
none), so it never constructs a 0-layer texture from an empty list; and
every Texture returned for a nonempty list of fewer than 65536 images has
layer count at least 1. -/
theorem new_array_empty_fails_amended :
    Texture.new_array ([] : List DynamicImage) = none ∧
    ∀ ls : List DynamicImage, ls ≠ [] → ls.length < 2 ^ 16 →
      ((Texture.new_array ls).map (fun p => p.1.layers)).isSome = true ∧
      1 ≤ ((Texture.new_array ls).map (fun p => p.1.layers)).getD 0 := by
  refine ⟨rfl, ?_⟩
  intro ls hne hlen
  cases ls with
  | nil => exact absurd rfl hne
  | cons l0 tl =>
    rw [new_array_layers]
    refine ⟨rfl, ?_⟩
    rw [Option.getD_some, Nat.mod_eq_of_lt hlen]
    simp only [List.length_cons]
    omega

/-- Witness for amended C10 at a concrete one-element list. -/
theorem new_array_empty_fails_amended_witness :
    ((Texture.new_array [ex2]).map (fun p => p.1.layers)).isSome = true ∧
    1 ≤ ((Texture.new_array [ex2]).map (fun p => p.1.layers)).getD 0 :=
  new_array_empty_fails_amended.2 [ex2] (by simp) (by norm_num)

end Coffee
